import Mathlib

/-!
# Verification of the mood_assist core (classifier, response selector, check-in ledger, aggregator)

Shallow embedding of the Python sources `classifier.py`, `content_loader.py`,
`storage.py` and `config.py` of the `mood_assist` repository, together with
theorems settling the specification claims about them.

Modelling conventions:
* Python strings are Lean `String`s; where the code manipulates characters
  (`str.lower`, `re.sub`, `str.split`) we work on `List Char`.  The embedding
  models the ASCII fragment of Python's semantics: `str.lower` is `Char.toLower`
  per character, the regex class `\w` is `[A-Za-z0-9_]`, `\s` is whitespace.
* Python dicts that are iterated (the keyword table, the response catalog,
  the button map, the fallback-text map) are association lists in insertion
  order; dict keys are unique in the source data.  Python `set` iteration
  order is unspecified; the set of matched categories is modelled as the
  first-seen list, and every theorem that touches the order-sensitive
  fallback `list(matched_categories)[0]` does so with a singleton set,
  where the order is immaterial.
* `random.choice(l)` is modelled by an adversarially chosen index `i`, the
  selected element being `l[i % l.length]`; file-system existence checks are
  an oracle `mediaExists : String → Bool`.
* Timestamps are whole seconds as `Int`.  SQLite's `CURRENT_TIMESTAMP` is UTC;
  Python's `datetime.now()` is the host's local wall clock.  The repository is
  configured for `Asia/Qyzylorda` (UTC+5, `config.py` line 11 and the schema
  default in `storage.py`), so the local clock reads UTC + 18000 seconds.
-/

namespace MoodAssist

/-! ## classifier.py -/

/-- `MoodClassifier.priority` (classifier.py lines 12–19).
Higher index = higher priority. -/
def priority : List String :=
  ["POSITIVE", "NEUTRAL_TIRED", "ANXIOUS_STRESSED",
   "ANGRY_FRUSTRATED", "SAD_LOW", "HEAVY_DEEP"]

/-- A character of the regex class `\w` (ASCII fragment): letters, digits, `_`. -/
def isWordChar (c : Char) : Bool :=
  c.isAlpha || c.isDigit || c = '_'

/-- A character of the regex class `\s`. -/
def isSpaceChar (c : Char) : Bool :=
  c.isWhitespace

/-- `re.sub(r'[^\w\s]', ' ', text)`: every character that is neither a word
character nor whitespace becomes a space. -/
def subPunct (s : List Char) : List Char :=
  s.map (fun c => if isWordChar c || isSpaceChar c then c else ' ')

/-- Helper for `str.split()`: accumulates the current word (reversed). -/
def splitWsAux : List Char → List Char → List (List Char)
  | [], acc => if acc.isEmpty then [] else [acc.reverse]
  | c :: rest, acc =>
    if isSpaceChar c then
      if acc.isEmpty then splitWsAux rest []
      else acc.reverse :: splitWsAux rest []
    else splitWsAux rest (c :: acc)

/-- Python `str.split()` (no argument): split on whitespace runs, dropping
empty pieces. -/
def splitWs (s : List Char) : List (List Char) :=
  splitWsAux s []

/-- `' '.join(words)`. -/
def joinSpace (ws : List (List Char)) : List Char :=
  List.intercalate [' '] ws

/-- `MoodClassifier._normalize_text` (classifier.py lines 30–38):
lowercase, replace punctuation by spaces, collapse whitespace. -/
def normalize_text (s : List Char) : List Char :=
  joinSpace (splitWs (subPunct (s.map Char.toLower)))

/-- `pat` is a prefix of `s` (helper for the substring test). -/
def startsWithChars : List Char → List Char → Bool
  | [], _ => true
  | _ :: _, [] => false
  | a :: pat, b :: s => a == b && startsWithChars pat s

/-- Python's `pat in s` on strings: `pat` occurs as a contiguous substring of
`s` (the empty pattern occurs in every string). -/
def containsChars (pat : List Char) : List Char → Bool
  | [] => pat.isEmpty
  | c :: rest => startsWithChars pat (c :: rest) || containsChars pat rest

/-- The body of the keyword test in `classify_text_mood` (lines 56–63):
a keyword matches when its normalized form is a substring of the normalized
text, or any of its constituent words equals a token of the input. -/
def keywordMatches (normalized : List Char) (words : List (List Char))
    (kw : String) : Bool :=
  let kn := normalize_text kw.toList
  containsChars kn normalized || (splitWs kn).any (fun w => words.contains w)

/-- The matched-category collection loop of `classify_text_mood`
(classifier.py lines 53–63), over an already-normalized text. -/
def matchedCategoriesN (table : List (String × List String))
    (normalized : List Char) : List String :=
  let words := splitWs normalized
  (table.filter (fun p => p.2.any (keywordMatches normalized words))).map Prod.fst

/-- The set of categories whose keywords match the text. -/
def matchedCategories (table : List (String × List String)) (text : String) :
    List String :=
  matchedCategoriesN table (normalize_text text.toList)

/-- The resolution step of `classify_text_mood` (classifier.py lines 65–74):
empty match set returns the default; otherwise the first category of the
reversed priority list that was matched; the final fallback
`list(matched_categories)[0]` returns an element of the matched set. -/
def resolvePriority (matched : List String) : String :=
  if matched.isEmpty then "NEUTRAL_TIRED"
  else
    match priority.reverse.find? (fun c => matched.contains c) with
    | some c => c
    | none => matched.headD ""

/-- `MoodClassifier.classify_text_mood` (classifier.py lines 44–74),
parameterized by the keyword table `self.keywords`. -/
def classify_text_mood (table : List (String × List String)) (userText : String) :
    String :=
  resolvePriority (matchedCategories table userText)

/-- `MOOD_BUTTONS` (config.py lines 39–47). -/
def MOOD_BUTTONS : List (String × String) :=
  [("😄 Happy", "POSITIVE"),
   ("🙂 Okay", "NEUTRAL_TIRED"),
   ("😴 Tired", "NEUTRAL_TIRED"),
   ("😔 Sad", "SAD_LOW"),
   ("😡 Angry", "ANGRY_FRUSTRATED"),
   ("😰 Anxious", "ANXIOUS_STRESSED"),
   ("🕳️ Empty", "HEAVY_DEEP")]

/-- `MoodClassifier.classify_button_mood` (classifier.py lines 40–42):
`MOOD_BUTTONS.get(button_label, None)`. -/
def classify_button_mood (label : String) : Option String :=
  (MOOD_BUTTONS.find? (fun p => p.1 == label)).map Prod.snd

/-- `MoodClassifier.classify` (classifier.py lines 76–91).  Python's
`category if category else "NEUTRAL_TIRED"` treats both `None` and the empty
string as falsy. -/
def classify (table : List (String × List String)) (moodInput : String)
    (isButton : Bool) : String :=
  if isButton then
    match classify_button_mood moodInput with
    | some c => if c = "" then "NEUTRAL_TIRED" else c
    | none => "NEUTRAL_TIRED"
  else
    classify_text_mood table moodInput

/-! ## content_loader.py -/

/-- One entry of the response catalog `responses.json`: the three optional
JSON keys `"texts"`, `"memes"`, `"videos"`. -/
structure CategoryData where
  texts : Option (List String)
  memes : Option (List String)
  videos : Option (List String)
  deriving Repr, DecidableEq

/-- Python truthiness of `"key" in d and d["key"]` for an optional list:
present and non-empty. -/
def truthyList : Option (List String) → Bool
  | some l => !l.isEmpty
  | none => false

/-- `random.choice(l)`, the draw modelled by an adversarial index `i`;
only applied to non-empty lists in the source. -/
def randomChoice (l : List String) (i : Nat) : String :=
  l.getD (i % l.length) ""

/-- The dict returned by `ContentLoader.get_content_for_category`. -/
structure Content where
  text : Option String
  meme : Option String
  video : Option String
  text_id : Option String
  deriving Repr, DecidableEq

/-- `category not in self.responses` / `self.responses[category]` on the
response catalog, modelled as an association list with unique keys. -/
def lookupCat (responses : List (String × CategoryData)) (c : String) :
    Option CategoryData :=
  (responses.find? (fun p => p.1 == c)).map Prod.snd

/-- `ContentLoader.get_content_for_category` (content_loader.py lines 24–71),
parameterized by the catalog `self.responses`, the media-existence oracle and
the three random draws. -/
def get_content_for_category (responses : List (String × CategoryData))
    (mediaExists : String → Bool) (ti mi vi : Nat) (category : String) :
    Content :=
  match lookupCat responses category with
  | none =>
    { text := some "Thanks for checking in. Take care of yourself.",
      meme := none, video := none, text_id := some "default" }
  | some cd =>
    let text :=
      if truthyList cd.texts then some (randomChoice (cd.texts.getD []) ti)
      else none
    let text_id :=
      if truthyList cd.texts then some (category ++ "_text") else none
    let meme :=
      if (category == "POSITIVE" || category == "NEUTRAL_TIRED")
          && truthyList cd.memes then
        let p := "media/memes/" ++ randomChoice (cd.memes.getD []) mi
        if mediaExists p then some p else none
      else none
    let video :=
      if (category == "SAD_LOW" || category == "ANXIOUS_STRESSED")
          && truthyList cd.videos then
        some (randomChoice (cd.videos.getD []) vi)
      else none
    { text := text, meme := meme, video := video, text_id := text_id }

/-- The hardcoded fallback dict of `ContentLoader._get_default_text`
(content_loader.py lines 94–101). -/
def default_texts : List (String × String) :=
  [("POSITIVE", "That's wonderful! Keep riding this wave and enjoy the moment."),
   ("NEUTRAL_TIRED", "It's okay to feel neutral. Rest when you need it."),
   ("SAD_LOW", "I hear you. You're not alone in this. One step at a time."),
   ("ANGRY_FRUSTRATED", "Your feelings are valid. Take a breath and give yourself space."),
   ("ANXIOUS_STRESSED", "Breathe. You're safe right now. One moment at a time."),
   ("HEAVY_DEEP", "I'm glad you're here. Please reach out to someone you trust. Your life matters.")]

/-- `ContentLoader._get_default_text` (content_loader.py lines 92–102):
`defaults.get(category, "Thanks for checking in with me.")`. -/
def get_default_text (category : String) : String :=
  ((default_texts.find? (fun p => p.1 == category)).map Prod.snd).getD
    "Thanks for checking in with me."

/-- The `if not content["text"]` block of `get_response_for_mood`
(content_loader.py lines 86–88).  Python's `not` is true for both `None` and
the empty string. -/
def ensureText (category : String) (content : Content) : Content :=
  match content.text with
  | none => { content with text := some (get_default_text category) }
  | some s =>
    if s = "" then { content with text := some (get_default_text category) }
    else content

/-- `ContentLoader.get_response_for_mood` (content_loader.py lines 73–90). -/
def get_response_for_mood (responses : List (String × CategoryData))
    (mediaExists : String → Bool) (ti mi vi : Nat) (category : String) :
    Content :=
  ensureText category
    (get_content_for_category responses mediaExists ti mi vi category)

/-! ## storage.py -/

/-- A row of the `users` table (the columns the claims need). -/
structure UserRow where
  user_id : Int
  username : Option String
  last_checkin_at : Option Int
  deriving Repr, DecidableEq

/-- A row of the `checkins` table.  `category` is `NOT NULL` in the schema. -/
structure CheckinRow where
  user_id : Int
  created_at : Int
  input_type : String
  mood_raw : Option String
  category : String
  response_text_id : Option String
  meme_file : Option String
  video_url : Option String
  deriving Repr, DecidableEq

/-- The SQLite database state. -/
structure DB where
  users : List UserRow
  checkins : List CheckinRow
  deriving Repr, DecidableEq

/-- Offset of the host's local clock over UTC, in seconds.  The repository is
configured for `Asia/Qyzylorda` (UTC+5): `TIMEZONE` default in config.py
line 11 and the schema default in storage.py line 28.  SQLite's
`CURRENT_TIMESTAMP` is UTC while Python's `datetime.now()` is local time, so
the two clocks the code mixes differ by this constant. -/
def tz_offset_seconds : Int := 18000

/-- `Database.get_last_checkin` (storage.py lines 81–94): the
`last_checkin_at` column of the user's row, `None` when the row is absent or
the column is `NULL`. -/
def get_last_checkin (db : DB) (uid : Int) : Option Int :=
  match db.users.find? (fun u => u.user_id == uid) with
  | some u => u.last_checkin_at
  | none => none

/-- `Database.can_checkin` (storage.py lines 96–108).  `nowLocal` is the value
of `datetime.now()` (local wall clock, seconds). -/
def can_checkin (db : DB) (nowLocal : Int) (uid : Int) (cooldown : Int) :
    Bool × Option Int :=
  match get_last_checkin db uid with
  | none => (true, none)
  | some last =>
    let elapsed := nowLocal - last
    if cooldown ≤ elapsed then (true, none)
    else (false, some (cooldown - elapsed))

/-- `Database.log_checkin` (storage.py lines 110–133).  `nowUtc` is the value
SQLite assigns for `CURRENT_TIMESTAMP` (UTC).  The `UPDATE` touches only the
rows whose `user_id` matches; raw text is stored only when `LOG_RAW_TEXT`. -/
def log_checkin (db : DB) (nowUtc : Int) (logRawText : Bool) (uid : Int)
    (category inputType : String)
    (moodRaw responseTextId memeFile videoUrl : Option String) : DB :=
  let stored := if logRawText then moodRaw else none
  { users := db.users.map fun u =>
      if u.user_id == uid then { u with last_checkin_at := some nowUtc } else u,
    checkins := db.checkins ++
      [{ user_id := uid, created_at := nowUtc, input_type := inputType,
         mood_raw := stored, category := category,
         response_text_id := responseTextId, meme_file := memeFile,
         video_url := videoUrl }] }

/-- The `stats()` snapshot of `Database.get_stats`. -/
structure Stats where
  total_users : Nat
  week_checkins : Nat
  category_counts : List (String × Nat)
  deriving Repr, DecidableEq

/-- The rows selected by `created_at >= datetime('now', '-7 days')`. -/
def weekWindow (db : DB) (nowUtc : Int) : List CheckinRow :=
  db.checkins.filter (fun c => nowUtc - 604800 ≤ c.created_at)

/-- `Database.get_stats` (storage.py lines 146–180).  `GROUP BY category`
yields each distinct category of the window once, with its row count; the
output order of the grouping is irrelevant to the claims and modelled by
`List.dedup`. -/
def get_stats (db : DB) (nowUtc : Int) : Stats :=
  { total_users := db.users.length,
    week_checkins := (weekWindow db nowUtc).length,
    category_counts :=
      ((weekWindow db nowUtc).map (fun c => c.category)).dedup.map
        (fun b => (b, ((weekWindow db nowUtc).filter
          (fun c => c.category == b)).length)) }

/-! ## Helper lemmas -/

/-- Every element of the priority list is one of the six literals. -/
lemma mem_priority_elim {c : String} (h : c ∈ priority) :
    c = "POSITIVE" ∨ c = "NEUTRAL_TIRED" ∨ c = "ANXIOUS_STRESSED" ∨
    c = "ANGRY_FRUSTRATED" ∨ c = "SAD_LOW" ∨ c = "HEAVY_DEEP" := by
  simpa [priority] using h

/-- Rewriting `resolvePriority` by the result of the search through the
reversed priority list. -/
lemma resolve_find (m : List String) (hE : m.isEmpty = false) (r : String)
    (hfind : priority.reverse.find? (fun c => m.contains c) = some r) :
    resolvePriority m = r := by
  unfold resolvePriority
  rw [hE]
  simp only [Bool.false_eq_true, if_false, hfind]

/-- When the matched set is non-empty and contained in the closed category
set, the resolution step returns a matched category of maximal priority
rank (rank = index in the `priority` list, higher = higher priority). -/
lemma resolve_priority_max (m : List String)
    (hsub : ∀ c ∈ m, c ∈ priority) (hne : m ≠ []) :
    resolvePriority m ∈ m ∧
    ∀ c ∈ m, priority.indexOf c ≤ priority.indexOf (resolvePriority m) := by
  have hE : m.isEmpty = false := by
    cases m
    · exact absurd rfl hne
    · simp
  have hrev : priority.reverse =
      ["HEAVY_DEEP", "SAD_LOW", "ANGRY_FRUSTRATED", "ANXIOUS_STRESSED",
       "NEUTRAL_TIRED", "POSITIVE"] := rfl
  by_cases h5 : "HEAVY_DEEP" ∈ m
  · have hr : resolvePriority m = "HEAVY_DEEP" := by
      refine resolve_find m hE _ ?_
      rw [hrev]
      exact List.find?_cons_of_pos _ (by simpa using h5)
    rw [hr]
    refine ⟨h5, fun c hc => ?_⟩
    rcases mem_priority_elim (hsub c hc) with rfl | rfl | rfl | rfl | rfl | rfl <;> decide
  · by_cases h4 : "SAD_LOW" ∈ m
    · have hr : resolvePriority m = "SAD_LOW" := by
        refine resolve_find m hE _ ?_
        rw [hrev, List.find?_cons_of_neg _ (by simpa using h5)]
        exact List.find?_cons_of_pos _ (by simpa using h4)
      rw [hr]
      refine ⟨h4, fun c hc => ?_⟩
      rcases mem_priority_elim (hsub c hc) with rfl | rfl | rfl | rfl | rfl | rfl <;>
        first | decide | exact absurd hc h5
    · by_cases h3 : "ANGRY_FRUSTRATED" ∈ m
      · have hr : resolvePriority m = "ANGRY_FRUSTRATED" := by
          refine resolve_find m hE _ ?_
          rw [hrev, List.find?_cons_of_neg _ (by simpa using h5),
            List.find?_cons_of_neg _ (by simpa using h4)]
          exact List.find?_cons_of_pos _ (by simpa using h3)
        rw [hr]
        refine ⟨h3, fun c hc => ?_⟩
        rcases mem_priority_elim (hsub c hc) with rfl | rfl | rfl | rfl | rfl | rfl <;>
          first | decide | exact absurd hc h5 | exact absurd hc h4
      · by_cases h2 : "ANXIOUS_STRESSED" ∈ m
        · have hr : resolvePriority m = "ANXIOUS_STRESSED" := by
            refine resolve_find m hE _ ?_
            rw [hrev, List.find?_cons_of_neg _ (by simpa using h5),
              List.find?_cons_of_neg _ (by simpa using h4),
              List.find?_cons_of_neg _ (by simpa using h3)]
            exact List.find?_cons_of_pos _ (by simpa using h2)
          rw [hr]
          refine ⟨h2, fun c hc => ?_⟩
          rcases mem_priority_elim (hsub c hc) with rfl | rfl | rfl | rfl | rfl | rfl <;>
            first | decide | exact absurd hc h5 | exact absurd hc h4 | exact absurd hc h3
        · by_cases h1 : "NEUTRAL_TIRED" ∈ m
          · have hr : resolvePriority m = "NEUTRAL_TIRED" := by
              refine resolve_find m hE _ ?_
              rw [hrev, List.find?_cons_of_neg _ (by simpa using h5),
                List.find?_cons_of_neg _ (by simpa using h4),
                List.find?_cons_of_neg _ (by simpa using h3),
                List.find?_cons_of_neg _ (by simpa using h2)]
              exact List.find?_cons_of_pos _ (by simpa using h1)
            rw [hr]
            refine ⟨h1, fun c hc => ?_⟩
            rcases mem_priority_elim (hsub c hc) with rfl | rfl | rfl | rfl | rfl | rfl <;>
              first | decide | exact absurd hc h5 | exact absurd hc h4 |
                exact absurd hc h3 | exact absurd hc h2
          · by_cases h0 : "POSITIVE" ∈ m
            · have hr : resolvePriority m = "POSITIVE" := by
                refine resolve_find m hE _ ?_
                rw [hrev, List.find?_cons_of_neg _ (by simpa using h5),
                  List.find?_cons_of_neg _ (by simpa using h4),
                  List.find?_cons_of_neg _ (by simpa using h3),
                  List.find?_cons_of_neg _ (by simpa using h2),
                  List.find?_cons_of_neg _ (by simpa using h1)]
                exact List.find?_cons_of_pos _ (by simpa using h0)
              rw [hr]
              refine ⟨h0, fun c hc => ?_⟩
              rcases mem_priority_elim (hsub c hc) with rfl | rfl | rfl | rfl | rfl | rfl <;>
                first | decide | exact absurd hc h5 | exact absurd hc h4 |
                  exact absurd hc h3 | exact absurd hc h2 | exact absurd hc h1
            · exfalso
              obtain ⟨c0, hc0⟩ : ∃ c, c ∈ m := by
                cases m
                · exact absurd rfl hne
                · exact ⟨_, List.mem_cons_self _ _⟩
              rcases mem_priority_elim (hsub c0 hc0) with rfl | rfl | rfl | rfl | rfl | rfl <;>
                first | exact absurd hc0 h5 | exact absurd hc0 h4 | exact absurd hc0 h3 |
                  exact absurd hc0 h2 | exact absurd hc0 h1 | exact absurd hc0 h0

/-- Every matched category is the key of some entry of the keyword table. -/
lemma matched_from_table (table : List (String × List String)) (text : String)
    (c : String) (hc : c ∈ matchedCategories table text) :
    ∃ p ∈ table, p.1 = c := by
  unfold matchedCategories matchedCategoriesN at hc
  obtain ⟨p, hp, heq⟩ := List.mem_map.mp hc
  exact ⟨p, List.mem_of_mem_filter hp, heq⟩

/-- The default fallback text is non-empty for every category. -/
lemma get_default_text_ne_empty (category : String) : get_default_text category ≠ "" := by
  unfold get_default_text
  cases h : default_texts.find? (fun p => p.1 == category) with
  | none => decide
  | some p =>
    have hp := List.mem_of_find?_eq_some h
    simp only [default_texts, List.mem_cons, List.not_mem_nil, or_false] at hp
    rcases hp with rfl | rfl | rfl | rfl | rfl | rfl <;> decide

/-- Content for a category absent from the catalog is the generic fallback. -/
lemma content_of_absent (responses : List (String × CategoryData))
    (mediaExists : String → Bool) (ti mi vi : Nat) (category : String)
    (hl : lookupCat responses category = none) :
    get_content_for_category responses mediaExists ti mi vi category =
      { text := some "Thanks for checking in. Take care of yourself.",
        meme := none, video := none, text_id := some "default" } := by
  unfold get_content_for_category
  rw [hl]

/-- The text field of the content for a present category. -/
lemma content_text_eq (responses : List (String × CategoryData))
    (mediaExists : String → Bool) (ti mi vi : Nat) (category : String)
    (cd : CategoryData) (hl : lookupCat responses category = some cd) :
    (get_content_for_category responses mediaExists ti mi vi category).text =
      (if truthyList cd.texts then some (randomChoice (cd.texts.getD []) ti)
       else none) := by
  unfold get_content_for_category
  rw [hl]

/-- The text-ensuring step never touches the meme field. -/
lemma ensureText_meme (category : String) (c : Content) :
    (ensureText category c).meme = c.meme := by
  unfold ensureText
  cases h : c.text with
  | none => rfl
  | some s => by_cases hs : s = "" <;> simp [hs]

/-- The text-ensuring step never touches the video field. -/
lemma ensureText_video (category : String) (c : Content) :
    (ensureText category c).video = c.video := by
  unfold ensureText
  cases h : c.text with
  | none => rfl
  | some s => by_cases hs : s = "" <;> simp [hs]

/-- Missing text is replaced by the per-category fallback. -/
lemma ensureText_of_none (category : String) (c : Content) (h : c.text = none) :
    ensureText category c = { c with text := some (get_default_text category) } := by
  unfold ensureText
  rw [h]

/-- Empty text is replaced by the per-category fallback. -/
lemma ensureText_of_empty (category : String) (c : Content) (h : c.text = some "") :
    ensureText category c = { c with text := some (get_default_text category) } := by
  unfold ensureText
  rw [h]
  simp

/-- Non-empty text is kept. -/
lemma ensureText_of_ne (category : String) (c : Content) (s : String)
    (h : c.text = some s) (hs : s ≠ "") :
    ensureText category c = c := by
  unfold ensureText
  rw [h]
  simp [hs]

/-- Ineligible categories get no meme. -/
lemma content_meme_none (responses : List (String × CategoryData))
    (mediaExists : String → Bool) (ti mi vi : Nat) (category : String)
    (h : (category == "POSITIVE" || category == "NEUTRAL_TIRED") = false) :
    (get_content_for_category responses mediaExists ti mi vi category).meme = none := by
  unfold get_content_for_category
  cases hl : lookupCat responses category
  · rfl
  · simp [h]

/-- Ineligible categories get no video. -/
lemma content_video_none (responses : List (String × CategoryData))
    (mediaExists : String → Bool) (ti mi vi : Nat) (category : String)
    (h : (category == "SAD_LOW" || category == "ANXIOUS_STRESSED") = false) :
    (get_content_for_category responses mediaExists ti mi vi category).video = none := by
  unfold get_content_for_category
  cases hl : lookupCat responses category
  · rfl
  · simp [h]

/-- After `log_checkin`, a registered user's stored last check-in timestamp
is the (UTC) time of the recording. -/
lemma get_last_checkin_log (db : DB) (uid t : Int) (logRawText : Bool)
    (category inputType : String)
    (moodRaw responseTextId memeFile videoUrl : Option String)
    (hreg : (db.users.find? (fun u => u.user_id == uid)).isSome) :
    get_last_checkin
      (log_checkin db t logRawText uid category inputType moodRaw responseTextId
        memeFile videoUrl) uid = some t := by
  unfold get_last_checkin log_checkin
  rw [List.find?_map]
  simp only [Function.comp_def]
  have hpred : (fun u : UserRow =>
      (if u.user_id == uid then { u with last_checkin_at := some t } else u).user_id
        == uid) = (fun u : UserRow => u.user_id == uid) := by
    funext u
    by_cases h : u.user_id == uid <;> simp [h]
  rw [hpred]
  obtain ⟨u, hu⟩ := Option.isSome_iff_exists.mp hreg
  have hu2 := List.find?_some hu
  simp only at hu2
  have hu3 : u.user_id = uid := by simpa using hu2
  rw [hu]
  simp [hu3]

/-- Summing a pointwise sum of two maps. -/
lemma sum_map_add_nat (bs : List String) (f g : String → Nat) :
    (bs.map (fun b => f b + g b)).sum = (bs.map f).sum + (bs.map g).sum := by
  induction bs with
  | nil => simp
  | cons b bs ih =>
    simp [ih]
    omega

/-- The indicator of a value absent from the list sums to zero. -/
lemma sum_indicator_zero (a : String) (bs : List String) (ha : a ∉ bs) :
    (bs.map (fun b => if a = b then 1 else 0)).sum = 0 := by
  induction bs with
  | nil => simp
  | cons b bs ih =>
    have h1 : a ≠ b := fun e => ha (e ▸ List.mem_cons_self b bs)
    have h2 : a ∉ bs := fun e => ha (List.mem_cons_of_mem b e)
    simp [h1, ih h2]

/-- The indicator of a value present in a duplicate-free list sums to one. -/
lemma sum_indicator_one (a : String) (bs : List String) (hn : bs.Nodup)
    (ha : a ∈ bs) :
    (bs.map (fun b => if a = b then 1 else 0)).sum = 1 := by
  induction bs with
  | nil => cases ha
  | cons b bs ih =>
    rcases List.mem_cons.mp ha with h | h
    · subst h
      have hnot : a ∉ bs := (List.nodup_cons.mp hn).1
      simp [sum_indicator_zero a bs hnot]
    · have hab : a ≠ b := fun e => (List.nodup_cons.mp hn).1 (e ▸ h)
      simp [hab, ih (List.nodup_cons.mp hn).2 h]

/-- Group-by counts over a complete duplicate-free key list sum to the number
of rows. -/
lemma sum_group_counts (l : List CheckinRow) (bs : List String)
    (hn : bs.Nodup) (hc : ∀ x ∈ l, x.category ∈ bs) :
    (bs.map (fun b => (l.filter (fun r => r.category == b)).length)).sum
      = l.length := by
  induction l with
  | nil => simp
  | cons x xs ih =>
    have hx := hc x (List.mem_cons_self x xs)
    have hxs : ∀ y ∈ xs, y.category ∈ bs :=
      fun y hy => hc y (List.mem_cons_of_mem x hy)
    have hmap : bs.map (fun b => ((x :: xs).filter (fun r => r.category == b)).length)
        = bs.map (fun b => (if x.category = b then 1 else 0)
            + (xs.filter (fun r => r.category == b)).length) := by
      apply List.map_congr_left
      intro b _
      by_cases h : x.category = b
      · simp [List.filter_cons, h]
        omega
      · simp [List.filter_cons, h]
    rw [hmap, sum_map_add_nat, sum_indicator_one x.category bs hn hx, ih hxs]
    simp [Nat.add_comm]

/-! ## Claim theorems -/

/-- C1: for every keyword table over the closed category set and every text
matching keywords of two or more categories, `classify_text_mood` returns a
matched category of maximal rank in the fixed priority order
HEAVY_DEEP > SAD_LOW > ANGRY_FRUSTRATED > ANXIOUS_STRESSED > NEUTRAL_TIRED >
POSITIVE (rank = index in the `priority` list, higher index = higher
priority). -/
theorem c1_text_priority_resolution (table : List (String × List String))
    (text : String) (htable : ∀ p ∈ table, p.1 ∈ priority)
    (hlen : 2 ≤ (matchedCategories table text).length) :
    classify_text_mood table text ∈ matchedCategories table text ∧
    ∀ c ∈ matchedCategories table text,
      priority.indexOf c ≤ priority.indexOf (classify_text_mood table text) := by
  have hsub : ∀ c ∈ matchedCategories table text, c ∈ priority := by
    intro c hc
    obtain ⟨p, hp, hpc⟩ := matched_from_table table text c hc
    exact hpc ▸ htable p hp
  have hne : matchedCategories table text ≠ [] := by
    intro h
    rw [h] at hlen
    simp at hlen
  unfold classify_text_mood
  exact resolve_priority_max _ hsub hne

/-- C1 witness: on the spec's own example the crisis category wins over the
co-occurring positive one. -/
theorem c1_text_priority_resolution_witness :
    classify_text_mood [("HEAVY_DEEP", ["kill myself"]), ("POSITIVE", ["happy"])]
        "I'm happy but want to kill myself"
      ∈ matchedCategories [("HEAVY_DEEP", ["kill myself"]), ("POSITIVE", ["happy"])]
        "I'm happy but want to kill myself" ∧
    priority.indexOf "POSITIVE" ≤ priority.indexOf
      (classify_text_mood [("HEAVY_DEEP", ["kill myself"]), ("POSITIVE", ["happy"])]
        "I'm happy but want to kill myself") :=
  ⟨(c1_text_priority_resolution _ _ (by decide) (by decide)).1,
   (c1_text_priority_resolution _ _ (by decide) (by decide)).2 "POSITIVE" (by decide)⟩

/-- C2 counterexample: with a keyword table whose only key lies outside the
closed category set, a matching text makes `classify_text_mood` return that
unknown name to the caller (classifier.py line 74), so the unknown name is
neither mapped to the default category nor kept from the caller. -/
theorem c2_unknown_category_counterexample :
    classify_text_mood [("WEIRD", ["foo"])] "foo" = "WEIRD" ∧
    "WEIRD" ∉ priority := by
  constructor
  · decide
  · decide

/-- C2 amended: the result lies in the closed six-category set whenever no
category matches or at least one matched category is in the closed set; only
when every matched category is outside the closed set does the code return
the unknown name itself. -/
theorem c2_unknown_category_amended (table : List (String × List String))
    (text : String)
    (h : matchedCategories table text = [] ∨
      ∃ c ∈ matchedCategories table text, c ∈ priority) :
    classify_text_mood table text ∈ priority := by
  unfold classify_text_mood resolvePriority
  rcases h with h | ⟨c, hc, hp⟩
  · simp [h, priority]
  · have hne : ((matchedCategories table text).isEmpty) = false := by
      cases hm : matchedCategories table text
      · rw [hm] at hc
        cases hc
      · simp
    rw [hne]
    simp only [Bool.false_eq_true, if_false]
    have hsome : (priority.reverse.find?
        (fun x => (matchedCategories table text).contains x)).isSome := by
      rw [List.find?_isSome]
      exact ⟨c, List.mem_reverse.mpr hp, by simpa using hc⟩
    obtain ⟨r, hr⟩ := Option.isSome_iff_exists.mp hsome
    rw [hr]
    exact List.mem_reverse.mp (List.mem_of_find?_eq_some hr)

/-- C2 amended, witness: an unknown matched name is suppressed when a
closed-set category also matches. -/
theorem c2_unknown_category_amended_witness :
    classify_text_mood [("WEIRD", ["foo"]), ("SAD_LOW", ["sad"])] "foo sad"
      ∈ priority :=
  c2_unknown_category_amended [("WEIRD", ["foo"]), ("SAD_LOW", ["sad"])]
    "foo sad" (Or.inr (by decide))

/-- C3 counterexample: `log_checkin` stores the UTC timestamp
(`CURRENT_TIMESTAMP`) while `can_checkin` measures the elapsed time against
the local clock (`datetime.now()`, UTC+5 per the configured timezone), so an
immediate `can_checkin` with the positive cooldown 60 s after a check-in
recorded at UTC time 0 (queried at UTC time 0 = local time 18000) returns
allowed = true, not false. -/
theorem c3_rate_limit_counterexample :
    can_checkin
      (log_checkin ⟨[⟨1, none, none⟩], []⟩ 0 false 1 "POSITIVE" "button"
        none none none none)
      tz_offset_seconds 1 60
      = (true, none) := by decide

/-- C3 amended: immediately after `log_checkin` (query delay `d ≥ 0`
seconds), for a registered user, `can_checkin` with a cooldown exceeding the
clock skew (18000 s) plus the delay returns allowed = false with remaining =
cooldown − d − 18000, which is positive, at most the cooldown, and for the
default 604800 s cooldown queried within 60 s lies strictly between
160 h (576000 s) and 170 h (612000 s). -/
theorem c3_rate_limit_amended (db : DB) (uid t d cooldown : Int)
    (logRawText : Bool) (category inputType : String)
    (moodRaw responseTextId memeFile videoUrl : Option String)
    (hreg : (db.users.find? (fun u => u.user_id == uid)).isSome)
    (hd : 0 ≤ d) (hc : tz_offset_seconds + d < cooldown) :
    can_checkin
      (log_checkin db t logRawText uid category inputType moodRaw responseTextId
        memeFile videoUrl)
      (t + d + tz_offset_seconds) uid cooldown
      = (false, some (cooldown - d - tz_offset_seconds)) ∧
    0 < cooldown - d - tz_offset_seconds ∧
    cooldown - d - tz_offset_seconds ≤ cooldown ∧
    (cooldown = 604800 → d ≤ 60 →
      576000 < cooldown - d - tz_offset_seconds ∧
      cooldown - d - tz_offset_seconds < 612000) := by
  have hlast := get_last_checkin_log db uid t logRawText category inputType
    moodRaw responseTextId memeFile videoUrl hreg
  unfold tz_offset_seconds at hc ⊢
  refine ⟨?_, by omega, by omega, fun h1 h2 => by omega⟩
  unfold can_checkin
  rw [hlast]
  dsimp only
  rw [if_neg (by omega)]
  have harith : cooldown - (t + d + 18000 - t) = cooldown - d - 18000 := by omega
  rw [harith]

/-- C3 amended, witness: a concrete registered user checked in at UTC time 0
and queried immediately with the default cooldown. -/
theorem c3_rate_limit_amended_witness :
    can_checkin
      (log_checkin ⟨[⟨1, none, none⟩], []⟩ 0 false 1 "POSITIVE" "button"
        none none none none)
      (0 + 0 + tz_offset_seconds) 1 604800
      = (false, some (604800 - 0 - tz_offset_seconds)) ∧
    (0 : Int) < 604800 - 0 - tz_offset_seconds ∧
    (604800 : Int) - 0 - tz_offset_seconds ≤ 604800 ∧
    ((604800 : Int) = 604800 → (0 : Int) ≤ 60 →
      (576000 : Int) < 604800 - 0 - tz_offset_seconds ∧
      (604800 : Int) - 0 - tz_offset_seconds < 612000) :=
  c3_rate_limit_amended ⟨[⟨1, none, none⟩], []⟩ 1 0 0 604800 false "POSITIVE"
    "button" none none none none (by decide) (by decide) (by decide)

/-- C4: `can_checkin` returns (true, none) for a user with no recorded prior
check-in; otherwise, with elapsed = now − last, it returns (true, none) when
elapsed ≥ cooldown and (false, cooldown − elapsed) with a positive remaining
duration when elapsed < cooldown. -/
theorem c4_can_checkin_contract (db : DB) (uid : Int) (now cooldown : Int) :
    (get_last_checkin db uid = none →
      can_checkin db now uid cooldown = (true, none)) ∧
    (∀ last, get_last_checkin db uid = some last →
      (cooldown ≤ now - last →
        can_checkin db now uid cooldown = (true, none)) ∧
      (now - last < cooldown →
        can_checkin db now uid cooldown
          = (false, some (cooldown - (now - last))) ∧
        0 < cooldown - (now - last))) := by
  refine ⟨fun h => ?_, fun last h => ⟨fun hge => ?_, fun hlt => ?_⟩⟩
  · simp [can_checkin, h]
  · simp [can_checkin, h, hge]
  · refine ⟨?_, by omega⟩
    simp only [can_checkin, h]
    rw [if_neg (by omega)]

/-- C4 witness: a never-seen user is allowed; a user who checked in 100 s ago
is blocked with 604700 s remaining. -/
theorem c4_can_checkin_contract_witness :
    can_checkin ⟨[], []⟩ 0 1 604800 = (true, none) ∧
    can_checkin ⟨[⟨1, none, some 0⟩], []⟩ 100 1 604800 = (false, some 604700) ∧
    (0 : Int) < 604700 := by
  have h0 := (c4_can_checkin_contract ⟨[], []⟩ 1 0 604800).1 rfl
  have h := ((c4_can_checkin_contract ⟨[⟨1, none, some 0⟩], []⟩ 1 100 604800).2
    0 rfl).2 (by omega)
  norm_num at h
  exact ⟨h0, h, by norm_num⟩

/-- C5 counterexample: the texts "ab" and "a.b" differ only by an inserted
punctuation character, yet classify differently: normalization replaces
punctuation by a space, so the inserted period splits the word and the
keyword "ab" no longer matches. -/
theorem c5_normalization_counterexample :
    classify_text_mood [("SAD_LOW", ["ab"])] "ab" = "SAD_LOW" ∧
    classify_text_mood [("SAD_LOW", ["ab"])] "a.b" = "NEUTRAL_TIRED" := by
  constructor
  · decide
  · decide

/-- C5 amended: `classify_text_mood` returns the same category for texts
that differ only in letter casing, and more generally for any two texts with
equal normalized forms; punctuation differences preserve the result exactly
when they leave the normalized text (punctuation mapped to a word separator)
unchanged. -/
theorem c5_normalization_amended (table : List (String × List String))
    (t1 t2 : String)
    (h : t1.toList.map Char.toLower = t2.toList.map Char.toLower ∨
      normalize_text t1.toList = normalize_text t2.toList) :
    classify_text_mood table t1 = classify_text_mood table t2 := by
  have hn : normalize_text t1.toList = normalize_text t2.toList := by
    rcases h with h | h
    · unfold normalize_text subPunct
      rw [h]
    · exact h
  unfold classify_text_mood matchedCategories
  rw [hn]

/-- C5 amended, witness: the spec's example pair, differing in casing and in
punctuation placed at word boundaries. -/
theorem c5_normalization_amended_witness :
    classify_text_mood [("SAD_LOW", ["sad"])] "I'm sad."
      = classify_text_mood [("SAD_LOW", ["sad"])] "I'M SAD!!!" :=
  c5_normalization_amended [("SAD_LOW", ["sad"])] "I'm sad." "I'M SAD!!!"
    (Or.inr (by decide))

/-- C6: `classify_text_mood` is a total function (the embedding has no
failure path); it returns the default category NEUTRAL_TIRED whenever no
category's keywords match the text, and in particular always does so when
the keyword table is empty. -/
theorem c6_default_category (table : List (String × List String))
    (text : String) :
    (matchedCategories table text = [] →
      classify_text_mood table text = "NEUTRAL_TIRED") ∧
    (∀ t : String, classify_text_mood [] t = "NEUTRAL_TIRED") := by
  constructor
  · intro h
    simp [classify_text_mood, resolvePriority, h]
  · intro t
    simp [classify_text_mood, resolvePriority, matchedCategories,
      matchedCategoriesN]

/-- C6 witness: a text matching nothing, and the empty table. -/
theorem c6_default_category_witness :
    classify_text_mood [("SAD_LOW", ["sad"])] "hello" = "NEUTRAL_TIRED" ∧
    classify_text_mood [] "hello" = "NEUTRAL_TIRED" :=
  ⟨(c6_default_category [("SAD_LOW", ["sad"])] "hello").1 (by decide),
   (c6_default_category [] "x").2 "hello"⟩

/-- C7: with is_button = true, `classify` maps every label of the fixed
button map to its category and every other label to NEUTRAL_TIRED; it is
total, hence never fails. -/
theorem c7_button_classification (table : List (String × List String))
    (label : String) :
    (∀ cat, (label, cat) ∈ MOOD_BUTTONS → classify table label true = cat) ∧
    ((∀ p ∈ MOOD_BUTTONS, p.1 ≠ label) →
      classify table label true = "NEUTRAL_TIRED") := by
  constructor
  · intro cat h
    simp only [MOOD_BUTTONS, List.mem_cons, List.not_mem_nil, or_false,
      Prod.mk.injEq] at h
    rcases h with ⟨rfl, rfl⟩ | ⟨rfl, rfl⟩ | ⟨rfl, rfl⟩ | ⟨rfl, rfl⟩ |
      ⟨rfl, rfl⟩ | ⟨rfl, rfl⟩ | ⟨rfl, rfl⟩ <;> rfl
  · intro h
    have hnone : classify_button_mood label = none := by
      unfold classify_button_mood
      rw [List.find?_eq_none.mpr]
      · rfl
      · intro p hp
        simpa using h p hp
    simp [classify, hnone]

/-- C7 witness: a mapped label and an unmapped one. -/
theorem c7_button_classification_witness :
    classify [] "😄 Happy" true = "POSITIVE" ∧
    classify [] "z" true = "NEUTRAL_TIRED" :=
  ⟨(c7_button_classification [] "😄 Happy").1 "POSITIVE" (by decide),
   (c7_button_classification [] "z").2 (by decide)⟩

/-- C8: for every catalog and every random draw, the selected response for
ANGRY_FRUSTRATED or HEAVY_DEEP carries neither meme nor video; a non-none
meme only ever occurs for POSITIVE or NEUTRAL_TIRED and a non-none video
only for SAD_LOW or ANXIOUS_STRESSED. -/
theorem c8_media_category_rule (responses : List (String × CategoryData))
    (mediaExists : String → Bool) (ti mi vi : Nat) (category : String) :
    ((category = "ANGRY_FRUSTRATED" ∨ category = "HEAVY_DEEP") →
      (get_response_for_mood responses mediaExists ti mi vi category).meme = none ∧
      (get_response_for_mood responses mediaExists ti mi vi category).video = none) ∧
    ((get_response_for_mood responses mediaExists ti mi vi category).meme ≠ none →
      category = "POSITIVE" ∨ category = "NEUTRAL_TIRED") ∧
    ((get_response_for_mood responses mediaExists ti mi vi category).video ≠ none →
      category = "SAD_LOW" ∨ category = "ANXIOUS_STRESSED") := by
  unfold get_response_for_mood
  rw [ensureText_meme, ensureText_video]
  refine ⟨fun h => ?_, fun h => ?_, fun h => ?_⟩
  · rcases h with rfl | rfl <;>
      exact ⟨content_meme_none _ _ _ _ _ _ (by decide),
        content_video_none _ _ _ _ _ _ (by decide)⟩
  · by_contra hcon
    push_neg at hcon
    exact h (content_meme_none _ _ _ _ _ _ (by simp [hcon.1, hcon.2]))
  · by_contra hcon
    push_neg at hcon
    exact h (content_video_none _ _ _ _ _ _ (by simp [hcon.1, hcon.2]))

/-- C8 witness: ANGRY_FRUSTRATED carries no media even with a catalog entry
full of media. -/
theorem c8_media_category_rule_witness :
    (get_response_for_mood
      [("ANGRY_FRUSTRATED", ⟨some ["t"], some ["m.jpg"], some ["v"]⟩)]
      (fun _ => true) 0 0 0 "ANGRY_FRUSTRATED").meme = none ∧
    (get_response_for_mood
      [("ANGRY_FRUSTRATED", ⟨some ["t"], some ["m.jpg"], some ["v"]⟩)]
      (fun _ => true) 0 0 0 "ANGRY_FRUSTRATED").video = none :=
  (c8_media_category_rule
    [("ANGRY_FRUSTRATED", ⟨some ["t"], some ["m.jpg"], some ["v"]⟩)]
    (fun _ => true) 0 0 0 "ANGRY_FRUSTRATED").1 (Or.inl rfl)

/-- C9: `get_response_for_mood` always returns a non-empty text; when the
category is present but its text list is empty or absent, the text is the
per-category hardcoded fallback; when the category is entirely absent from
the catalog, the result is the generic fallback with no media and text_id
"default". -/
theorem c9_response_fallback (responses : List (String × CategoryData))
    (mediaExists : String → Bool) (ti mi vi : Nat) (category : String) :
    (∃ s, (get_response_for_mood responses mediaExists ti mi vi category).text
        = some s ∧ s ≠ "") ∧
    (∀ cd, lookupCat responses category = some cd → truthyList cd.texts = false →
      (get_response_for_mood responses mediaExists ti mi vi category).text
        = some (get_default_text category)) ∧
    (lookupCat responses category = none →
      get_response_for_mood responses mediaExists ti mi vi category =
        { text := some "Thanks for checking in. Take care of yourself.",
          meme := none, video := none, text_id := some "default" }) := by
  unfold get_response_for_mood
  cases hl : lookupCat responses category with
  | none =>
    rw [content_of_absent responses mediaExists ti mi vi category hl]
    rw [ensureText_of_ne _ _ "Thanks for checking in. Take care of yourself."
      rfl (by decide)]
    exact ⟨⟨_, rfl, by decide⟩, fun cd hcd => Option.noConfusion hcd, fun _ => rfl⟩
  | some cd =>
    have htext := content_text_eq responses mediaExists ti mi vi category cd hl
    refine ⟨?_, ?_, fun hnone => Option.noConfusion hnone⟩
    · by_cases ht : truthyList cd.texts
      · rw [if_pos ht] at htext
        by_cases hs : randomChoice (cd.texts.getD []) ti = ""
        · rw [ensureText_of_empty _ _ (htext.trans (by rw [hs]))]
          exact ⟨_, rfl, get_default_text_ne_empty category⟩
        · rw [ensureText_of_ne _ _ _ htext hs]
          exact ⟨_, htext, hs⟩
      · rw [if_neg ht] at htext
        rw [ensureText_of_none _ _ htext]
        exact ⟨_, rfl, get_default_text_ne_empty category⟩
    · intro cd' hcd' ht'
      have hcc : cd' = cd := (Option.some.inj hcd').symm
      subst hcc
      rw [ht'] at htext
      simp only [Bool.false_eq_true, if_false] at htext
      rw [ensureText_of_none _ _ htext]

/-- C9 witness: a category with an empty text list gets its per-category
fallback, and an absent category gets the generic fallback record. -/
theorem c9_response_fallback_witness :
    (get_response_for_mood [("SAD_LOW", ⟨some [], none, none⟩)]
      (fun _ => false) 0 0 0 "SAD_LOW").text
      = some (get_default_text "SAD_LOW") ∧
    get_response_for_mood [] (fun _ => false) 0 0 0 "POSITIVE" =
      { text := some "Thanks for checking in. Take care of yourself.",
        meme := none, video := none, text_id := some "default" } :=
  ⟨(c9_response_fallback [("SAD_LOW", ⟨some [], none, none⟩)]
      (fun _ => false) 0 0 0 "SAD_LOW").2.1 ⟨some [], none, none⟩ rfl rfl,
   (c9_response_fallback [] (fun _ => false) 0 0 0 "POSITIVE").2.2 rfl⟩

/-- C10: in every statistics snapshot, the week check-in count equals the
sum of the per-category counts, both being computed over the same trailing
7-day window and every check-in row carrying a category. -/
theorem c10_stats_consistency (db : DB) (now : Int) :
    ((get_stats db now).category_counts.map Prod.snd).sum
      = (get_stats db now).week_checkins := by
  unfold get_stats
  simp only [List.map_map]
  exact sum_group_counts (weekWindow db now) _ (List.nodup_dedup _)
    (fun x hx => List.mem_dedup.mpr (List.mem_map_of_mem _ hx))

end MoodAssist
